import Mathlib

/-
Shallow embedding of svg-native-viewer's rendering-abstraction contract
(src/svgnative/include/SVGRenderer.h).  The header declares passive value
types with default member initializers (embedded below directly from the
source) and pure-virtual interfaces (Transform, Path, Shape, ImageData,
SVGRenderer) whose behavior is fixed only by the specification; those
behaviors are modelled from the spec, each marked in its doc comment.

Machine floats are embedded as exact rationals; fields whose source default
is std::numeric_limits<float>::quiet_NaN() use the type FloatNaN, whose
nan constructor stands for the quiet-NaN sentinel and whose val constructor
carries an ordinary numeric value.
-/

namespace SVGNative

/-- Line caps, from enum class LineCap (SVGRenderer.h lines 29-34). -/
inductive LineCap
| kButt
| kRound
| kSquare
deriving DecidableEq

/-- Line joins, from enum class LineJoin (SVGRenderer.h lines 40-45). -/
inductive LineJoin
| kMiter
| kRound
| kBevel
deriving DecidableEq

/-- Winding rules, from enum class WindingRule (SVGRenderer.h lines 51-55). -/
inductive WindingRule
| kNonZero
| kEvenOdd
deriving DecidableEq

/-- Gradient type, from enum class GradientType (SVGRenderer.h lines 62-66). -/
inductive GradientType
| kLinearGradient
| kRadialGradient
deriving DecidableEq

/-- Gradient spread method, from enum class SpreadMethod (SVGRenderer.h lines 76-81). -/
inductive SpreadMethod
| kPad
| kReflect
| kRepeat
deriving DecidableEq

/-- Embedding of a C float that may be the quiet-NaN sentinel
(std::numeric_limits<float>::quiet_NaN() in the source): nan is the
sentinel, val q an ordinary numeric value. -/
inductive FloatNaN
| nan
| val (q : ℚ)
deriving DecidableEq

/-- Color, from `using Color = std::array<float, 4>` (SVGRenderer.h line 88):
four channels R, G, B, A. -/
structure Color where
r : ℚ
g : ℚ
b : ℚ
a : ℚ
deriving DecidableEq

/-- ColorStop, from `using ColorStop = std::pair<float, Color>` (line 90). -/
abbrev ColorStop : Type := ℚ × Color

/-- Rect, from struct Rect (SVGRenderer.h lines 93-99): all four fields
default to the quiet-NaN sentinel. -/
structure Rect where
x : FloatNaN
y : FloatNaN
width : FloatNaN
height : FloatNaN
deriving DecidableEq

/-- Default-constructed Rect: the member initializers of struct Rect,
all quiet_NaN (SVGRenderer.h lines 95-98). -/
def Rect.default : Rect :=
  ⟨FloatNaN.nan, FloatNaN.nan, FloatNaN.nan, FloatNaN.nan⟩

/-- Affine 2D transform matrix with 6 values (a, b, c, d, tx, ty).
Modelled from the spec: class Transform (SVGRenderer.h lines 151-161) is a
pure-virtual interface whose concrete matrix state lives in backend ports
not present under src/; the spec describes it as "opaque affine matrix
state (a,b,c,d,tx,ty conceptually)". -/
structure Transform where
a : ℚ
b : ℚ
c : ℚ
d : ℚ
tx : ℚ
ty : ℚ
deriving DecidableEq

/-- Modelled from the spec: applying an affine transform to a point, the
"2D linear map plus translation, represented by 6 coefficients" of the
glossary, in the standard SVG matrix convention. -/
def Transform.apply (t : Transform) (p : ℚ × ℚ) : ℚ × ℚ :=
  (t.a * p.1 + t.c * p.2 + t.tx, t.b * p.1 + t.d * p.2 + t.ty)

/-- Modelled from the spec: `Concat(other)` merges another transform's
matrix into this one with post-multiply semantics `this = this ∘ other`
(other's transform is applied first); the body of Transform::Concat lives
in backend ports not present under src/. -/
def Transform.Concat (t o : Transform) : Transform :=
  ⟨t.a * o.a + t.c * o.b,
   t.b * o.a + t.d * o.b,
   t.a * o.c + t.c * o.d,
   t.b * o.c + t.d * o.d,
   t.a * o.tx + t.c * o.ty + t.tx,
   t.b * o.tx + t.d * o.ty + t.ty⟩

/-- CreateTransform, from SVGRenderer::CreateTransform (SVGRenderer.h
lines 233-234): builds a transform from the six coefficients.  The
declared default arguments are a=1.0, b=0.0, c=0.0, d=1.0, tx=0.0,
ty=0.0. -/
def CreateTransform (a b c d tx ty : ℚ) : Transform :=
  ⟨a, b, c, d, tx, ty⟩

/-- The transform produced by calling CreateTransform with no arguments,
i.e. at the default arguments declared in the source
(SVGRenderer.h line 234): (1, 0, 0, 1, 0, 0). -/
def CreateTransformDefault : Transform :=
  CreateTransform 1 0 0 1 0 0

/-- Gradient, from struct Gradient (SVGRenderer.h lines 104-119).  The nine
geometry fields default to the quiet-NaN sentinel; the shared_ptr transform
defaults to null (none). -/
structure Gradient where
type : GradientType
method : SpreadMethod
colorStops : List ColorStop
x1 : FloatNaN
y1 : FloatNaN
x2 : FloatNaN
y2 : FloatNaN
cx : FloatNaN
cy : FloatNaN
fx : FloatNaN
fy : FloatNaN
r : FloatNaN
transform : Option Transform
deriving DecidableEq

/-- Default-constructed Gradient: the member initializers of struct
Gradient (SVGRenderer.h lines 106-118). -/
def Gradient.default : Gradient :=
  ⟨GradientType.kLinearGradient, SpreadMethod.kPad, [],
   FloatNaN.nan, FloatNaN.nan, FloatNaN.nan, FloatNaN.nan,
   FloatNaN.nan, FloatNaN.nan, FloatNaN.nan, FloatNaN.nan, FloatNaN.nan,
   none⟩

/-- Paint, from `using Paint = boost::variant<Color, Gradient>`
(SVGRenderer.h line 89): a tagged union over exactly Color and Gradient. -/
inductive Paint
| color (c : Color)
| gradient (g : Gradient)
deriving DecidableEq

/-- StrokeStyle, from struct StrokeStyle (SVGRenderer.h lines 124-135). -/
structure StrokeStyle where
hasStroke : Bool
strokeOpacity : ℚ
lineWidth : ℚ
lineCap : LineCap
lineJoin : LineJoin
miterLimit : ℚ
dashArray : List ℚ
dashOffset : ℚ
paint : Paint
deriving DecidableEq

/-- Default-constructed StrokeStyle: the member initializers of struct
StrokeStyle (SVGRenderer.h lines 126-134): hasStroke=false,
strokeOpacity=1, lineWidth=1, kButt, kMiter, miterLimit=4, empty
dashArray, dashOffset=0, paint=Color{0,0,0,1}. -/
def StrokeStyle.default : StrokeStyle :=
  ⟨false, 1, 1, LineCap.kButt, LineJoin.kMiter, 4, [], 0,
   Paint.color ⟨0, 0, 0, 1⟩⟩

/-- FillStyle, from struct FillStyle (SVGRenderer.h lines 140-146). -/
structure FillStyle where
hasFill : Bool
fillRule : WindingRule
fillOpacity : ℚ
paint : Paint
deriving DecidableEq

/-- Default-constructed FillStyle: the member initializers of struct
FillStyle (SVGRenderer.h lines 142-145): hasFill=true, kNonZero,
fillOpacity=1, paint=Color{0,0,0,1}. -/
def FillStyle.default : FillStyle :=
  ⟨true, WindingRule.kNonZero, 1, Paint.color ⟨0, 0, 0, 1⟩⟩

/-- One segment-construction command of the Path interface, from class Path
(SVGRenderer.h lines 177-191): a Path is built incrementally from these
calls, so a built path is embedded as the list of commands issued. -/
inductive PathSeg
| rect (x y width height : ℚ)
| roundedRect (x y width height cornerRadius : ℚ)
| ellipse (cx cy rx ry : ℚ)
| moveTo (x y : ℚ)
| lineTo (x y : ℚ)
| curveTo (x1 y1 x2 y2 x3 y3 : ℚ)
| curveToV (x2 y2 x3 y3 : ℚ)
| closePath
deriving DecidableEq

/-- A built Path: the ordered sequence of segment commands issued to it. -/
abbrev PathData : Type := List PathSeg

/-- Modelled from the spec: the filled region a Shape denotes (class Shape,
SVGRenderer.h lines 198-205, is a pure-virtual interface; its geometry
lives in backend ports not present under src/).  Only its role as a clip
region — a set of points — is needed here. -/
abbrev ShapeRegion : Type := Set (ℚ × ℚ)

/-- GraphicStyle, from struct GraphicStyle (SVGRenderer.h lines 166-172):
opacity, optional shared transform, optional shared clipping path.  The
clippingPath is embedded by the region its Shape denotes. -/
structure GraphicStyle where
opacity : ℚ
transform : Option Transform
clippingPath : Option ShapeRegion

/-- Default-constructed GraphicStyle: opacity=1, null transform, null
clippingPath (SVGRenderer.h lines 169-171). -/
def GraphicStyle.default : GraphicStyle :=
  ⟨1, none, none⟩

/-- The transform a GraphicStyle contributes: its transform field, or the
identity when the shared_ptr is null. -/
def GraphicStyle.effTransform (gs : GraphicStyle) : Transform :=
  gs.transform.getD CreateTransformDefault

/-- The clip region a GraphicStyle contributes: the region of its
clippingPath, or the whole plane when the shared_ptr is null. -/
def GraphicStyle.effClip (gs : GraphicStyle) : ShapeRegion :=
  gs.clippingPath.getD Set.univ

/-- A graphic state: the accumulated (transform, opacity, clip) tuple of
the spec's state machine (spec section 4.4 and glossary). -/
structure GraphicState where
transform : Transform
opacity : ℚ
clip : ShapeRegion

/-- The initial graphic state before any Save: identity transform, unit
opacity, unbounded clip. -/
def initialGraphicState : GraphicState :=
  ⟨CreateTransformDefault, 1, Set.univ⟩

/-- The renderer's graphic-state stack (SVGRenderer, SVGRenderer.h
lines 225-242, owns only this stack). -/
abbrev RendererState : Type := List GraphicState

/-- The current top-of-stack state; the initial state when nothing has
been pushed. -/
def currentState : RendererState → GraphicState
  | [] => initialGraphicState
  | s :: _ => s

/-- Modelled from the spec: the state pushed by Save is computed by
composing the incoming style with the current top-of-stack state —
transform concatenates, opacity multiplies, clip intersects with the
current clip (spec section 4.4). -/
def composeState (gs : GraphicStyle) (cur : GraphicState) : GraphicState :=
  ⟨cur.transform.Concat gs.effTransform,
   gs.opacity * cur.opacity,
   gs.effClip ∩ cur.clip⟩

/-- Modelled from the spec: SVGRenderer::Save (SVGRenderer.h line 236) is
pure virtual; the spec says it pushes the composed state onto the stack. -/
def Save (gs : GraphicStyle) (st : RendererState) : RendererState :=
  composeState gs (currentState st) :: st

/-- Modelled from the spec: SVGRenderer::Restore (SVGRenderer.h line 237)
is pure virtual; the spec says it pops the stack (popping an empty stack
is a caller contract violation, left as a no-op here). -/
def Restore (st : RendererState) : RendererState :=
  st.tail

/-- Folding a whole sequence of Save calls over the stack. -/
def SaveAll (styles : List GraphicStyle) (st : RendererState) : RendererState :=
  styles.foldl (fun s gs => Save gs s) st

/-- One primitive rasterization action emitted by a drawing call: painting
a path's fill or its stroke under an effective graphic state. -/
inductive RenderOp
| fillOp (path : PathData) (state : GraphicState) (fs : FillStyle)
| strokeOp (path : PathData) (state : GraphicState) (ss : StrokeStyle)

/-- Modelled from the spec: SVGRenderer::DrawPath (SVGRenderer.h
lines 239-240) is pure virtual; the spec says it composes the call's own
graphicStyle atop the current stack top without pushing it permanently
and rasterizes fill then stroke.  Returns the emitted rasterization
actions together with the (unchanged) stack. -/
def DrawPath (path : PathData) (gs : GraphicStyle) (fs : FillStyle)
    (ss : StrokeStyle) (st : RendererState) : List RenderOp × RendererState :=
  ((if fs.hasFill then [RenderOp.fillOp path (composeState gs (currentState st)) fs] else []) ++
   (if ss.hasStroke then [RenderOp.strokeOp path (composeState gs (currentState st)) ss] else []),
   st)

/-- ImageData, from class ImageData (SVGRenderer.h lines 212-219): exposes
only the decoded image's Width and Height. -/
structure ImageData where
width : ℚ
height : ℚ
deriving DecidableEq

/-- Modelled from the spec: SVGRenderer::CreateImageData (SVGRenderer.h
line 230) is pure virtual; the backend's base64 decoding is not specified,
so it is taken as a parameter decode giving the decoded dimensions, none
when the payload is malformed.  CreateImageData fails (null result) when
decoding fails and leaves the renderer state untouched either way. -/
def CreateImageData (decode : String → Option (ℚ × ℚ)) (st : RendererState)
    (base64 : String) : Option ImageData × RendererState :=
  match decode base64 with
  | none => (none, st)
  | some wh => (some ⟨wh.1, wh.2⟩, st)

/-- One call of the SVGRenderer interface (SVGRenderer.h lines 225-242). -/
inductive RendererCall
| createImageData (base64 : String)
| createPath
| createShape (path : PathData) (windingRule : WindingRule)
| createTransform (a b c d tx ty : ℚ)
| save (gs : GraphicStyle)
| restore
| drawPath (path : PathData) (gs : GraphicStyle) (fs : FillStyle) (ss : StrokeStyle)
| drawImage (image : ImageData) (gs : GraphicStyle) (clipArea fillArea : Rect)

/-- The error taxonomy of the contract (spec section 7): the only failure
is a decode error from CreateImageData. -/
inductive RendererError
| decodeError
deriving DecidableEq

/-- Modelled from the spec: one step of the renderer session.  Every call
succeeds and updates the graphic-state stack as the contract describes,
except CreateImageData on a payload that decode rejects, which reports a
decode error and is the contract's only error condition. -/
def step (decode : String → Option (ℚ × ℚ)) :
    RendererCall → RendererState → Except RendererError RendererState
  | RendererCall.createImageData s, st =>
      match decode s with
      | none => Except.error RendererError.decodeError
      | some _ => Except.ok st
  | RendererCall.createPath, st => Except.ok st
  | RendererCall.createShape _ _, st => Except.ok st
  | RendererCall.createTransform _ _ _ _ _ _, st => Except.ok st
  | RendererCall.save gs, st => Except.ok (Save gs st)
  | RendererCall.restore, st => Except.ok (Restore st)
  | RendererCall.drawPath p gs fs ss, st => Except.ok (DrawPath p gs fs ss st).2
  | RendererCall.drawImage _ _ _ _, st => Except.ok st

/-- Errors of a renderer session arise only from CreateImageData calls
whose payload fails to decode. -/
def errorsOnlyFromDecode (decode : String → Option (ℚ × ℚ)) : Prop :=
  ∀ (call : RendererCall) (st : RendererState) (e : RendererError),
    step decode call st = Except.error e →
      ∃ s, call = RendererCall.createImageData s ∧ decode s = none

/-- A concrete stroke style with hasStroke switched on (all other fields at
their source defaults), for exercising drawing calls that stroke. -/
def strokeOn : StrokeStyle :=
  ⟨true, 1, 1, LineCap.kButt, LineJoin.kMiter, 4, [], 0,
   Paint.color ⟨0, 0, 0, 1⟩⟩

/-- A concrete payload for exercising CreateImageData. -/
def samplePayload : String := ""

/-- A decode stand-in that rejects every payload. -/
def rejectAll : String → Option (ℚ × ℚ) := fun _ => none

/-- C1: for every graphic-state stack and every pair of graphic styles,
Save(s1); Save(s2); Restore(); Restore() leaves the renderer's
graphic-state stack exactly as it was: Restore undoes Save on the state
stack. -/
theorem c1_save_save_restore_restore (st : RendererState) (s1 s2 : GraphicStyle) :
    Restore (Restore (Save s2 (Save s1 st))) = st := rfl

/-- C2: Save pushes a state whose transform is the concatenation of the
incoming style's transform with the current top-of-stack transform, whose
opacity is the product of the incoming and current opacities, and whose
clip is the intersection of the incoming clip with the current clip; and
across any sequence of Save calls the effective clip region never grows. -/
theorem c2_save_composition_and_clip_monotone (gs : GraphicStyle)
    (styles : List GraphicStyle) (st : RendererState) :
    (currentState (Save gs st)).transform
        = (currentState st).transform.Concat gs.effTransform ∧
    (currentState (Save gs st)).opacity = gs.opacity * (currentState st).opacity ∧
    (currentState (Save gs st)).clip = gs.effClip ∩ (currentState st).clip ∧
    (currentState (SaveAll styles st)).clip ⊆ (currentState st).clip := by
  refine ⟨rfl, rfl, rfl, ?_⟩
  induction styles generalizing st with
  | nil => exact fun _ h => h
  | cons g rest ih =>
      have h1 : (currentState (SaveAll rest (Save g st))).clip
          ⊆ (currentState (Save g st)).clip := ih (Save g st)
      have h2 : (currentState (Save g st)).clip ⊆ (currentState st).clip :=
        fun _ hp => hp.2
      exact fun p hp => h2 (h1 hp)

/-- C3: Concat is associative; it is not commutative (witnessed by a
non-identity translation and a non-identity scale); and it has
post-multiply semantics: applying Concat t o applies o first, then t. -/
theorem c3_concat_assoc_not_comm :
    (∀ t1 t2 t3 : Transform, (t1.Concat t2).Concat t3 = t1.Concat (t2.Concat t3)) ∧
    (∃ t1 t2 : Transform, t1 ≠ CreateTransformDefault ∧ t2 ≠ CreateTransformDefault ∧
      t1.Concat t2 ≠ t2.Concat t1) ∧
    (∀ (t o : Transform) (p : ℚ × ℚ), (t.Concat o).apply p = t.apply (o.apply p)) := by
  refine ⟨?_, ?_, ?_⟩
  · intro t1 t2 t3
    simp only [Transform.Concat, Transform.mk.injEq]
    refine ⟨by ring, by ring, by ring, by ring, by ring, by ring⟩
  · refine ⟨⟨1, 0, 0, 1, 1, 0⟩, ⟨2, 0, 0, 2, 0, 0⟩, ?_, ?_, ?_⟩
    · intro h
      have htx := congrArg Transform.tx h
      norm_num [CreateTransformDefault, CreateTransform] at htx
    · intro h
      have ha := congrArg Transform.a h
      norm_num [CreateTransformDefault, CreateTransform] at ha
    · intro h
      have htx := congrArg Transform.tx h
      norm_num [Transform.Concat] at htx
  · intro t o p
    simp only [Transform.Concat, Transform.apply, Prod.mk.injEq]
    exact ⟨by ring, by ring⟩

/-- C4: when the fill style has hasFill and the stroke style has hasStroke,
DrawPath emits the fill action strictly before the stroke action, both
under the call's graphicStyle composed atop the current stack top, and the
graphic-state stack is returned unchanged (nothing is pushed permanently). -/
theorem c4_drawpath_fill_before_stroke (path : PathData) (gs : GraphicStyle)
    (fs : FillStyle) (ss : StrokeStyle) (st : RendererState)
    (hf : fs.hasFill = true) (hs : ss.hasStroke = true) :
    DrawPath path gs fs ss st =
      ([RenderOp.fillOp path (composeState gs (currentState st)) fs,
        RenderOp.strokeOp path (composeState gs (currentState st)) ss], st) := by
  simp [DrawPath, hf, hs]

/-- Witness for C4 at concrete inputs: the default fill style and a stroke
style with hasStroke on, drawn on the empty stack. -/
theorem c4_drawpath_fill_before_stroke_witness :
    FillStyle.default.hasFill = true ∧ strokeOn.hasStroke = true ∧
    DrawPath [] GraphicStyle.default FillStyle.default strokeOn [] =
      ([RenderOp.fillOp [] (composeState GraphicStyle.default (currentState [])) FillStyle.default,
        RenderOp.strokeOp [] (composeState GraphicStyle.default (currentState [])) strokeOn], []) :=
  ⟨rfl, rfl,
   c4_drawpath_fill_before_stroke [] GraphicStyle.default FillStyle.default strokeOn [] rfl rfl⟩

/-- C5: on a payload that cannot be decoded, CreateImageData returns a null
result and leaves the renderer state untouched (the session stays usable),
the session step reports the decode error, and a failed decode in
CreateImageData is the only error condition of the whole SVGRenderer
contract. -/
theorem c5_create_image_data_only_error (decode : String → Option (ℚ × ℚ))
    (st : RendererState) (s : String) (h : decode s = none) :
    CreateImageData decode st s = (none, st) ∧
    step decode (RendererCall.createImageData s) st
        = Except.error RendererError.decodeError ∧
    errorsOnlyFromDecode decode := by
  refine ⟨by simp [CreateImageData, h], by simp [step, h], ?_⟩
  intro call st2 e hstep
  cases call with
  | createImageData s2 =>
      cases hd : decode s2 with
      | none => exact ⟨s2, rfl, hd⟩
      | some wh =>
          simp only [step, hd] at hstep
          exact Except.noConfusion hstep
  | createPath => cases hstep
  | createShape p w => cases hstep
  | createTransform a b c d tx ty => cases hstep
  | save gs => cases hstep
  | restore => cases hstep
  | drawPath p gs fs ss => cases hstep
  | drawImage i gs ca fa => cases hstep

/-- Witness for C5 at concrete inputs: the decode stand-in that rejects
everything, the empty stack and the sample payload. -/
theorem c5_create_image_data_only_error_witness :
    rejectAll samplePayload = none ∧
    (CreateImageData rejectAll [] samplePayload = (none, []) ∧
     step rejectAll (RendererCall.createImageData samplePayload) []
         = Except.error RendererError.decodeError ∧
     errorsOnlyFromDecode rejectAll) :=
  ⟨rfl, c5_create_image_data_only_error rejectAll [] samplePayload rfl⟩

/-- C6: the default Paint of a default-constructed FillStyle and of a
default-constructed StrokeStyle is the Color variant with channels
(R, G, B, A) = (0, 0, 0, 1): opaque black. -/
theorem c6_default_paint_opaque_black :
    FillStyle.default.paint = Paint.color ⟨0, 0, 0, 1⟩ ∧
    StrokeStyle.default.paint = Paint.color ⟨0, 0, 0, 1⟩ :=
  ⟨rfl, rfl⟩

/-- C7: every numeric field of a default-constructed Rect and every
geometry field of a default-constructed Gradient is the NaN sentinel, and
the sentinel is distinguishable from an explicit zero. -/
theorem c7_nan_sentinel_defaults :
    Rect.default.x = FloatNaN.nan ∧ Rect.default.y = FloatNaN.nan ∧
    Rect.default.width = FloatNaN.nan ∧ Rect.default.height = FloatNaN.nan ∧
    Gradient.default.x1 = FloatNaN.nan ∧ Gradient.default.y1 = FloatNaN.nan ∧
    Gradient.default.x2 = FloatNaN.nan ∧ Gradient.default.y2 = FloatNaN.nan ∧
    Gradient.default.cx = FloatNaN.nan ∧ Gradient.default.cy = FloatNaN.nan ∧
    Gradient.default.fx = FloatNaN.nan ∧ Gradient.default.fy = FloatNaN.nan ∧
    Gradient.default.r = FloatNaN.nan ∧
    FloatNaN.nan ≠ FloatNaN.val 0 :=
  ⟨rfl, rfl, rfl, rfl, rfl, rfl, rfl, rfl, rfl, rfl, rfl, rfl, rfl,
   fun h => FloatNaN.noConfusion h⟩

/-- C8: Paint is a sum over exactly the alternatives Color and Gradient:
every Paint value is exactly one of the two variants, never both. -/
theorem c8_paint_tagged_union (p : Paint) :
    ((∃ c, p = Paint.color c) ∧ ¬ ∃ g, p = Paint.gradient g) ∨
    ((∃ g, p = Paint.gradient g) ∧ ¬ ∃ c, p = Paint.color c) := by
  cases p with
  | color c =>
      refine Or.inl ⟨⟨c, rfl⟩, ?_⟩
      intro hg
      obtain ⟨g, hgg⟩ := hg
      cases hgg
  | gradient g =>
      refine Or.inr ⟨⟨g, rfl⟩, ?_⟩
      intro hc
      obtain ⟨c, hcc⟩ := hc
      cases hcc

/-- C9: CreateTransform at its declared default arguments yields the
identity matrix (1, 0, 0, 1, 0, 0), which maps every point to itself. -/
theorem c9_create_transform_default_identity :
    CreateTransformDefault = Transform.mk 1 0 0 1 0 0 ∧
    ∀ p : ℚ × ℚ, CreateTransformDefault.apply p = p := by
  refine ⟨rfl, ?_⟩
  intro p
  simp [CreateTransformDefault, CreateTransform, Transform.apply]

/-- C10: the default FillStyle has hasFill with NonZero winding and unit
fill opacity, the default StrokeStyle has no stroke with lineWidth 1, Butt
cap, Miter join, miterLimit 4 (at least 1), empty dash array and zero dash
offset; hence DrawPath with fully default styles emits a fill action and
no stroke action. -/
theorem c10_default_styles_fill_not_stroke (path : PathData) (gs : GraphicStyle)
    (st : RendererState) :
    FillStyle.default.hasFill = true ∧
    FillStyle.default.fillRule = WindingRule.kNonZero ∧
    FillStyle.default.fillOpacity = 1 ∧
    StrokeStyle.default.hasStroke = false ∧
    StrokeStyle.default.lineWidth = 1 ∧
    StrokeStyle.default.lineCap = LineCap.kButt ∧
    StrokeStyle.default.lineJoin = LineJoin.kMiter ∧
    StrokeStyle.default.miterLimit = 4 ∧
    (1 : ℚ) ≤ StrokeStyle.default.miterLimit ∧
    StrokeStyle.default.dashArray = [] ∧
    StrokeStyle.default.dashOffset = 0 ∧
    (DrawPath path gs FillStyle.default StrokeStyle.default st).1 =
      [RenderOp.fillOp path (composeState gs (currentState st)) FillStyle.default] := by
  refine ⟨rfl, rfl, rfl, rfl, rfl, rfl, rfl, rfl, ?_, rfl, rfl, ?_⟩
  · norm_num [StrokeStyle.default]
  · simp [DrawPath, FillStyle.default, StrokeStyle.default]

end SVGNative
